import Mathlib

/-!
Shallow embedding of the image-resizer front end (src/src/ImageResizer.jsx).

JavaScript numbers are modelled exactly: finite values as rationals, plus
NaN and the two signed infinities, so that division by a zero natural
dimension behaves as in the source.  Math.round on a finite value rounds
half away up, i.e. floor (x + 1/2); on NaN and the infinities it is the
identity.  The asynchronous canvas.toBlob encoder is abstracted as a
function argument returning an optional blob URL, and DOM side effects
(window.open, anchor click) are reified as values so the handlers stay
pure.
-/

/-- A JavaScript number: NaN, +Infinity, -Infinity, or a finite value
modelled as an exact rational. -/
inductive JSNum where
  | nan : JSNum
  | posInf : JSNum
  | negInf : JSNum
  | fin : ℚ → JSNum
  deriving DecidableEq

/-- JavaScript division, including the IEEE special cases the source can
hit: finite/0 gives a signed infinity (NaN for 0/0), finite/infinity
gives 0, infinity/finite keeps the infinity. -/
def jsDiv : JSNum → JSNum → JSNum
  | JSNum.nan, _ => JSNum.nan
  | _, JSNum.nan => JSNum.nan
  | JSNum.posInf, JSNum.posInf => JSNum.nan
  | JSNum.posInf, JSNum.negInf => JSNum.nan
  | JSNum.negInf, JSNum.posInf => JSNum.nan
  | JSNum.negInf, JSNum.negInf => JSNum.nan
  | JSNum.posInf, JSNum.fin b => if b < 0 then JSNum.negInf else JSNum.posInf
  | JSNum.negInf, JSNum.fin b => if b < 0 then JSNum.posInf else JSNum.negInf
  | JSNum.fin _, JSNum.posInf => JSNum.fin 0
  | JSNum.fin _, JSNum.negInf => JSNum.fin 0
  | JSNum.fin a, JSNum.fin b =>
    if b = 0 then
      if a = 0 then JSNum.nan
      else if 0 < a then JSNum.posInf
      else JSNum.negInf
    else JSNum.fin (a / b)

/-- JavaScript multiplication on the extended numbers (0 * infinity is
NaN). -/
def jsMul : JSNum → JSNum → JSNum
  | JSNum.nan, _ => JSNum.nan
  | _, JSNum.nan => JSNum.nan
  | JSNum.posInf, JSNum.posInf => JSNum.posInf
  | JSNum.posInf, JSNum.negInf => JSNum.negInf
  | JSNum.negInf, JSNum.posInf => JSNum.negInf
  | JSNum.negInf, JSNum.negInf => JSNum.posInf
  | JSNum.posInf, JSNum.fin b =>
    if b = 0 then JSNum.nan else if 0 < b then JSNum.posInf else JSNum.negInf
  | JSNum.negInf, JSNum.fin b =>
    if b = 0 then JSNum.nan else if 0 < b then JSNum.negInf else JSNum.posInf
  | JSNum.fin a, JSNum.posInf =>
    if a = 0 then JSNum.nan else if 0 < a then JSNum.posInf else JSNum.negInf
  | JSNum.fin a, JSNum.negInf =>
    if a = 0 then JSNum.nan else if 0 < a then JSNum.negInf else JSNum.posInf
  | JSNum.fin a, JSNum.fin b => JSNum.fin (a * b)

/-- Math.round: half-up rounding on finite values, identity on NaN and the
infinities. -/
def jsRound : JSNum → JSNum
  | JSNum.nan => JSNum.nan
  | JSNum.posInf => JSNum.posInf
  | JSNum.negInf => JSNum.negInf
  | JSNum.fin q => JSNum.fin ((⌊q + 1/2⌋ : ℤ) : ℚ)

/-- The string a JavaScript number renders as inside a template literal.
Only NaN, the infinities and integer-valued finite numbers appear in the
claims; a non-integral finite value is rendered via the rational printer
as an approximation of the (unused) decimal form. -/
def jsNumStr : JSNum → String
  | JSNum.nan => "NaN"
  | JSNum.posInf => "Infinity"
  | JSNum.negInf => "-Infinity"
  | JSNum.fin q => if q.den = 1 then toString q.num else toString q

/-- Abstraction of the value of a dimension text input, classified by what
the JavaScript coercion Number(v) does to it: empty strings parse to 0,
non-numeric strings to NaN, and numeric strings to their value (with the
infinite literals kept apart). -/
inductive InputVal where
  | empty : InputVal
  | nonNumeric : InputVal
  | infinite : Bool → InputVal
  | numeric : ℚ → InputVal
  deriving DecidableEq

/-- The coercion `Number(v) || 0` used by the width/height change handlers:
an empty string gives 0, NaN (from a non-numeric string) is falsy and gives
0, everything else keeps its parsed value (0 itself is falsy but `|| 0`
yields 0 again, the same value). -/
def jsNumberOr0 : InputVal → JSNum
  | InputVal.empty => JSNum.fin 0
  | InputVal.nonNumeric => JSNum.fin 0
  | InputVal.infinite b => if b then JSNum.posInf else JSNum.negInf
  | InputVal.numeric q => JSNum.fin q

/-- A decoded image: the natural (intrinsic) pixel dimensions reported by
the platform, which are nonnegative integers. -/
structure ImageData where
  naturalWidth : ℕ
  naturalHeight : ℕ
  deriving DecidableEq

/-- A selected file; only its MIME type tag is ever inspected. -/
structure JSFile where
  type : String
  deriving DecidableEq

/-- The React component state of ImageResizer: the file/image/preview
references and the resize options, with the same fields and initial
semantics as the useState hooks. -/
structure ResizerState where
  file : Option JSFile
  image : Option ImageData
  previewUrl : Option String
  width : JSNum
  height : JSNum
  percent : ℚ
  usePercent : Bool
  keepAspect : Bool
  quality : ℚ
  format : String
  deriving DecidableEq

/-- The initial state of the component: width 800, height 600, percent 100,
percent mode off, keep-aspect on, quality 0.9, JPEG format, nothing
loaded. -/
def initialState : ResizerState :=
  { file := none
    image := none
    previewUrl := none
    width := JSNum.fin 800
    height := JSNum.fin 600
    percent := 100
    usePercent := false
    keepAspect := true
    quality := 9/10
    format := "image/jpeg" }

/-- The target-dimension computation of resizeToBlobUrl (lines 48-60):
start from the stored width/height; in percent mode round both natural
dimensions scaled by percent/100; otherwise, when keep-aspect is on,
derive the height from the width and the aspect quotient
naturalWidth/naturalHeight. -/
def computeTargetDims (img : ImageData) (s : ResizerState) : JSNum × JSNum :=
  let targetW := s.width
  let targetH := s.height
  if s.usePercent then
    let factor := jsDiv (JSNum.fin s.percent) (JSNum.fin 100)
    (jsRound (jsMul (JSNum.fin (img.naturalWidth : ℚ)) factor),
     jsRound (jsMul (JSNum.fin (img.naturalHeight : ℚ)) factor))
  else if s.keepAspect then
    let aspect := jsDiv (JSNum.fin (img.naturalWidth : ℚ))
      (JSNum.fin (img.naturalHeight : ℚ))
    (targetW, jsRound (jsDiv targetW aspect))
  else
    (targetW, targetH)

/-- The value resolved by resizeToBlobUrl on success: the blob URL and the
dimensions that were drawn. -/
structure ResizeResult where
  url : String
  width : JSNum
  height : JSNum
  deriving DecidableEq

/-- An encoder: the canvas.toBlob step abstracted as a function of the
target dimensions, the format and the quality, returning the blob URL, or
none when the encoder yields no data. -/
def Encoder : Type := JSNum → JSNum → String → ℚ → Option String

/-- resizeToBlobUrl (lines 46-80): returns none when no image is loaded or
no canvas is available; otherwise computes the target dimensions, draws,
and resolves none when the encoder yields no blob, or the blob URL with
the dimensions on success. -/
def resizeToBlobUrl (s : ResizerState) (canvasAvailable : Bool)
    (encode : Encoder) : Option ResizeResult :=
  match s.image with
  | none => none
  | some img =>
    if canvasAvailable then
      let dims := computeTargetDims img s
      match encode dims.1 dims.2 s.format s.quality with
      | none => none
      | some url => some { url := url, width := dims.1, height := dims.2 }
    else none

/-- A reified DOM side effect of the action handlers. -/
inductive BrowserAction where
  | openTab : String → BrowserAction
  | download : String → String → BrowserAction
  deriving DecidableEq

/-- handleResizeClick (lines 98-103): run the resize; if it produced no
result do nothing, otherwise open the blob URL in a new tab.  The state is
returned unchanged: the handler touches no state. -/
def handleResizeClick (s : ResizerState) (canvasAvailable : Bool)
    (encode : Encoder) : ResizerState × Option BrowserAction :=
  match resizeToBlobUrl s canvasAvailable encode with
  | none => (s, none)
  | some r => (s, some (BrowserAction.openTab r.url))

/-- The extension chosen by handleDownload (line 112): png for image/png,
webp for image/webp, jpg for anything else. -/
def extFor (format : String) : String :=
  if format = "image/png" then "png"
  else if format = "image/webp" then "webp"
  else "jpg"

/-- handleDownload (lines 105-119): run the resize; if it produced no
result do nothing, otherwise offer the blob for download under the name
resized-WxH.ext built from the result dimensions and the format. -/
def handleDownload (s : ResizerState) (canvasAvailable : Bool)
    (encode : Encoder) : ResizerState × Option BrowserAction :=
  match resizeToBlobUrl s canvasAvailable encode with
  | none => (s, none)
  | some r =>
    let ext := extFor s.format
    (s, some (BrowserAction.download r.url
      ("resized-" ++ jsNumStr r.width ++ "x" ++ jsNumStr r.height ++ "." ++ ext)))

/-- The startsWith test of JavaScript strings, stated on the character
list: pre is a prefix of s. -/
def strStartsWith (s pre : String) : Bool :=
  pre.data.isPrefixOf s.data

/-- handleFile (lines 82-90): ignore a missing file; reject a file whose
type tag does not start with "image/" with an alert and no state change;
otherwise store the file.  The returned string is the user-visible alert
message, if any. -/
def handleFile (f : Option JSFile) (s : ResizerState) :
    ResizerState × Option String :=
  match f with
  | none => (s, none)
  | some f =>
    if !(strStartsWith f.type "image/") then
      (s, some "Please upload an image file.")
    else
      ({ s with file := some f }, none)

/-- handleWidthChange (lines 121-128): coerce the input with Number(v)||0,
store it as the width, and when keep-aspect is on and an image is loaded
also store the derived height round(n / aspect). -/
def handleWidthChange (v : InputVal) (s : ResizerState) : ResizerState :=
  let n := jsNumberOr0 v
  let s1 := { s with width := n }
  if s.keepAspect then
    match s.image with
    | some img =>
      let aspect := jsDiv (JSNum.fin (img.naturalWidth : ℚ))
        (JSNum.fin (img.naturalHeight : ℚ))
      { s1 with height := jsRound (jsDiv n aspect) }
    | none => s1
  else s1

/-- handleHeightChange (lines 130-137): coerce the input with Number(v)||0,
store it as the height, and when keep-aspect is on and an image is loaded
also store the derived width round(n * aspect). -/
def handleHeightChange (v : InputVal) (s : ResizerState) : ResizerState :=
  let n := jsNumberOr0 v
  let s1 := { s with height := n }
  if s.keepAspect then
    match s.image with
    | some img =>
      let aspect := jsDiv (JSNum.fin (img.naturalWidth : ℚ))
        (JSNum.fin (img.naturalHeight : ℚ))
      { s1 with width := jsRound (jsMul n aspect) }
    | none => s1
  else s1

/-- The Clear button handler (lines 284-293): set file, image and
previewUrl to null. -/
def clearClick (s : ResizerState) : ResizerState :=
  { s with file := none, image := none, previewUrl := none }

/-- A user edit of one of the two dimension text inputs. -/
inductive EditEvent where
  | editWidth : InputVal → EditEvent
  | editHeight : InputVal → EditEvent
  deriving DecidableEq

/-- Dispatch one edit event to its handler. -/
def applyEdit : EditEvent → ResizerState → ResizerState
  | EditEvent.editWidth v, s => handleWidthChange v s
  | EditEvent.editHeight v, s => handleHeightChange v s

/-- Apply a sequence of dimension edits in order. -/
def applyEdits (es : List EditEvent) (s : ResizerState) : ResizerState :=
  es.foldl (fun s e => applyEdit e s) s

/-- Rounding as written in the spec: round to nearest integer, halves up. -/
def specRound (x : ℚ) : ℤ := ⌊x + 1/2⌋

/-- The percent-mode dimension formula as written in the spec:
(round(naturalWidth * factor / 100), round(naturalHeight * factor / 100)),
where factor is the percent value. -/
def percentDimsSpec (naturalWidth naturalHeight : ℕ) (factor : ℚ) : ℤ × ℤ :=
  (specRound ((naturalWidth : ℚ) * factor / 100),
   specRound ((naturalHeight : ℚ) * factor / 100))

/-- A state with a 1-by-1 image loaded and percent mode at factor 1, the
input of the C1 counterexample. -/
def c1State : ResizerState :=
  { initialState with image := some ⟨1, 1⟩, usePercent := true, percent := 1 }

/-- A state with a 2-by-3 image loaded, keep-aspect on and percent mode
off, the input of the C2 counterexample. -/
def c2State : ResizerState :=
  { initialState with image := some ⟨2, 3⟩ }

/-- A state with a degenerate 0-by-0 image loaded, keep-aspect on and
percent mode off, the input of the C3 counterexample. -/
def c3State : ResizerState :=
  { initialState with image := some ⟨0, 0⟩ }

/-- A state with an 800-by-600 image loaded, used by several witnesses. -/
def loadedState : ResizerState :=
  { initialState with image := some ⟨800, 600⟩ }

/-- A state with a 640-by-480 image, percent mode at 100 and WebP output,
the input of the C7 witness. -/
def webpState : ResizerState :=
  { initialState with
    image := some ⟨640, 480⟩
    usePercent := true
    format := "image/webp" }

section

attribute [local semireducible] Rat.add Rat.mul Rat.inv Rat.sub

/-- Each dimension edit leaves the loaded image and the two mode toggles
unchanged: the handlers only write the width and height fields. -/
theorem applyEdit_preserves (e : EditEvent) (s : ResizerState) :
    (applyEdit e s).image = s.image ∧ (applyEdit e s).usePercent = s.usePercent ∧
      (applyEdit e s).keepAspect = s.keepAspect := by
  cases e <;> rename_i v <;>
    simp only [applyEdit, handleWidthChange, handleHeightChange] <;>
    cases hk : s.keepAspect <;> cases hi : s.image <;> simp

/-- A sequence of dimension edits leaves the loaded image and the two mode
toggles unchanged. -/
theorem applyEdits_preserves (es : List EditEvent) (s : ResizerState) :
    (applyEdits es s).image = s.image ∧ (applyEdits es s).usePercent = s.usePercent ∧
      (applyEdits es s).keepAspect = s.keepAspect := by
  induction es generalizing s with
  | nil => simp [applyEdits]
  | cons e es ih =>
    have h1 := applyEdit_preserves e s
    have h2 := ih (applyEdit e s)
    simp only [applyEdits, List.foldl_cons] at h2 ⊢
    exact ⟨h2.1.trans h1.1, h2.2.1.trans h1.2.1, h2.2.2.trans h1.2.2⟩

/-- Splitting a sequence of edits at the end. -/
theorem applyEdits_append (es : List EditEvent) (e : EditEvent) (s : ResizerState) :
    applyEdits (es ++ [e]) s = applyEdit e (applyEdits es s) := by
  simp [applyEdits, List.foldl_append]

/-- Claim C4: whenever percent mode is selected the computed target
dimensions are exactly round(naturalWidth * factor / 100) and
round(naturalHeight * factor / 100), the formula as written in the
spec. -/
theorem percent_mode_dims_match_spec (img : ImageData) (s : ResizerState)
    (hp : s.usePercent = true) :
    computeTargetDims img s =
      (JSNum.fin ((percentDimsSpec img.naturalWidth img.naturalHeight s.percent).1 : ℚ),
       JSNum.fin ((percentDimsSpec img.naturalWidth img.naturalHeight s.percent).2 : ℚ)) := by
  have h100 : (100 : ℚ) ≠ 0 := by norm_num
  simp only [computeTargetDims, hp, if_true, jsDiv, jsMul, jsRound, h100, if_false,
    percentDimsSpec, specRound, if_neg h100]
  rw [mul_div_assoc, mul_div_assoc]

/-- Claim C4 witness: an 800-by-600 image at factor 50 yields 400 by 300,
matching the spec formula. -/
theorem percent_mode_dims_match_spec_witness :
    computeTargetDims ⟨800, 600⟩
        { initialState with usePercent := true, percent := 50 } =
      (JSNum.fin 400, JSNum.fin 300) := by
  rw [percent_mode_dims_match_spec ⟨800, 600⟩
    { initialState with usePercent := true, percent := 50 } rfl]
  decide

/-- Claim C9: the Clear action sets exactly the file, image and previewUrl
fields to none and leaves width, height, percent, usePercent, keepAspect,
quality and format unchanged. -/
theorem clear_resets_only_media (s : ResizerState) :
    (clearClick s).file = none ∧ (clearClick s).image = none ∧
      (clearClick s).previewUrl = none ∧
      (clearClick s).width = s.width ∧ (clearClick s).height = s.height ∧
      (clearClick s).percent = s.percent ∧
      (clearClick s).usePercent = s.usePercent ∧
      (clearClick s).keepAspect = s.keepAspect ∧
      (clearClick s).quality = s.quality ∧
      (clearClick s).format = s.format := by
  simp [clearClick]

/-- Claim C6: a file whose type tag does not begin with the image
indicator is rejected with the user-visible alert, and the state,
including the stored file, image and preview URL, is returned unchanged,
so no decode or resize-engine call can follow from this event. -/
theorem non_image_file_rejected (f : JSFile) (s : ResizerState)
    (h : strStartsWith f.type "image/" = false) :
    handleFile (some f) s = (s, some "Please upload an image file.") := by
  simp [handleFile, h]

/-- Claim C6 witness: a text/plain file is rejected with the alert and the
initial state is untouched. -/
theorem non_image_file_rejected_witness :
    handleFile (some ⟨"text/plain"⟩) initialState =
      (initialState, some "Please upload an image file.") :=
  non_image_file_rejected ⟨"text/plain"⟩ initialState (by decide)

/-- Claim C8: with no image loaded, or no canvas available, resizeToBlobUrl
returns none, and both the preview and the download handlers leave the
state unchanged and perform no browser action. -/
theorem no_image_no_action (s : ResizerState) (canvasAvailable : Bool)
    (encode : Encoder) (h : s.image = none ∨ canvasAvailable = false) :
    resizeToBlobUrl s canvasAvailable encode = none ∧
      handleResizeClick s canvasAvailable encode = (s, none) ∧
      handleDownload s canvasAvailable encode = (s, none) := by
  have hr : resizeToBlobUrl s canvasAvailable encode = none := by
    rcases h with h | h
    · simp [resizeToBlobUrl, h]
    · subst h
      cases hi : s.image <;> simp [resizeToBlobUrl, hi]
  exact ⟨hr, by simp [handleResizeClick, hr], by simp [handleDownload, hr]⟩

/-- Claim C8 witness: in the initial state (no image) with a canvas and a
willing encoder, nothing happens. -/
theorem no_image_no_action_witness :
    resizeToBlobUrl initialState true (fun _ _ _ _ => some "blob:u") = none ∧
      handleResizeClick initialState true (fun _ _ _ _ => some "blob:u") =
        (initialState, none) ∧
      handleDownload initialState true (fun _ _ _ _ => some "blob:u") =
        (initialState, none) :=
  no_image_no_action initialState true (fun _ _ _ _ => some "blob:u") (Or.inl rfl)

/-- Claim C5: when the encoder yields no data, resizeToBlobUrl resolves
none, so the failure is returned to the caller, and neither the preview
handler nor the download handler takes any browser action or changes the
state. -/
theorem encode_failure_surfaced (s : ResizerState) (img : ImageData)
    (encode : Encoder) (hi : s.image = some img)
    (henc : ∀ w h f q, encode w h f q = none) :
    resizeToBlobUrl s true encode = none ∧
      handleResizeClick s true encode = (s, none) ∧
      handleDownload s true encode = (s, none) := by
  have hr : resizeToBlobUrl s true encode = none := by
    simp [resizeToBlobUrl, hi, henc]
  exact ⟨hr, by simp [handleResizeClick, hr], by simp [handleDownload, hr]⟩

/-- Claim C5 witness: with an 800-by-600 image loaded and an encoder that
yields no blob, the failure comes back as none and no action is taken. -/
theorem encode_failure_surfaced_witness :
    resizeToBlobUrl loadedState true (fun _ _ _ _ => none) = none ∧
      handleResizeClick loadedState true (fun _ _ _ _ => none) =
        (loadedState, none) ∧
      handleDownload loadedState true (fun _ _ _ _ => none) =
        (loadedState, none) :=
  encode_failure_surfaced loadedState ⟨800, 600⟩ (fun _ _ _ _ => none) rfl
    (fun _ _ _ _ => rfl)

/-- Claim C10: an empty or non-numeric width input is coerced to 0 and
stored; with keep-aspect on and an image of positive natural dimensions
loaded, the derived other dimension stored is round(0 / aspect) = 0
(symmetrically for the height field), so zero dimensions are representable
in the UI state. -/
theorem empty_input_stores_zero (v : InputVal) (s : ResizerState)
    (img : ImageData) (hv : v = InputVal.empty ∨ v = InputVal.nonNumeric)
    (hi : s.image = some img) (hk : s.keepAspect = true)
    (hnw : 0 < img.naturalWidth) (hnh : 0 < img.naturalHeight) :
    (handleWidthChange v s).width = JSNum.fin 0 ∧
      (handleWidthChange v s).height = JSNum.fin 0 ∧
      (handleHeightChange v s).height = JSNum.fin 0 ∧
      (handleHeightChange v s).width = JSNum.fin 0 := by
  have hn : jsNumberOr0 v = JSNum.fin 0 := by
    rcases hv with h | h <;> subst h <;> rfl
  have hnwq : ((img.naturalWidth : ℚ)) ≠ 0 := by
    exact_mod_cast hnw.ne'
  have hnhq : ((img.naturalHeight : ℚ)) ≠ 0 := by
    exact_mod_cast hnh.ne'
  have ha : (img.naturalWidth : ℚ) / (img.naturalHeight : ℚ) ≠ 0 :=
    div_ne_zero hnwq hnhq
  simp only [handleWidthChange, handleHeightChange, hn, hi, hk, if_true,
    jsDiv, jsMul, jsRound, if_neg hnhq, if_neg ha, zero_div, zero_mul]
  norm_num

/-- Claim C10 witness: an empty input with an 800-by-600 image loaded and
keep-aspect on stores 0 in both fields, from either handler. -/
theorem empty_input_stores_zero_witness :
    (handleWidthChange InputVal.empty loadedState).width = JSNum.fin 0 ∧
      (handleWidthChange InputVal.empty loadedState).height = JSNum.fin 0 ∧
      (handleHeightChange InputVal.empty loadedState).height = JSNum.fin 0 ∧
      (handleHeightChange InputVal.empty loadedState).width = JSNum.fin 0 :=
  empty_input_stores_zero InputVal.empty loadedState ⟨800, 600⟩ (Or.inl rfl)
    rfl rfl (by decide) (by decide)

/-- Claim C7: a download whose resize result has integer dimensions w and h
is offered under the filename resized-WxH.ext, and the extension map sends
image/jpeg to jpg, image/png to png and image/webp to webp. -/
theorem download_filename_format (s : ResizerState) (canvasAvailable : Bool)
    (encode : Encoder) (r : ResizeResult) (w h : ℤ)
    (hr : resizeToBlobUrl s canvasAvailable encode = some r)
    (hw : r.width = JSNum.fin (w : ℚ)) (hh : r.height = JSNum.fin (h : ℚ)) :
    handleDownload s canvasAvailable encode =
      (s, some (BrowserAction.download r.url
        ("resized-" ++ toString w ++ "x" ++ toString h ++ "." ++ extFor s.format))) ∧
      extFor "image/jpeg" = "jpg" ∧ extFor "image/png" = "png" ∧
      extFor "image/webp" = "webp" := by
  refine ⟨?_, by decide, by decide, by decide⟩
  simp only [handleDownload, hr]
  rw [hw, hh]
  simp [jsNumStr, Rat.den_intCast, Rat.num_intCast]

/-- Claim C7 witness: the spec example, a WebP result at 640 by 480, is
offered as resized-640x480.webp. -/
theorem download_filename_format_witness :
    handleDownload webpState true (fun _ _ _ _ => some "blob:w") =
      (webpState, some (BrowserAction.download "blob:w" "resized-640x480.webp")) := by
  rw [(download_filename_format webpState true (fun _ _ _ _ => some "blob:w")
    { url := "blob:w", width := JSNum.fin 640, height := JSNum.fin 480 }
    640 480 (by decide) (by decide) (by decide)).1]
  decide

/-- Claim C1 counterexample: a 1-by-1 image at percent factor 1 flows
through the pipeline to an output of 0 by 0 — the rounded dimension 0 is
not clamped to 1. -/
theorem percent_dims_not_clamped :
    resizeToBlobUrl c1State true (fun _ _ _ _ => some "blob:a") =
      some { url := "blob:a", width := JSNum.fin 0, height := JSNum.fin 0 } ∧
      ¬(1 ≤ (0 : ℚ)) := by
  decide

/-- Claim C1 amended: the computed dimensions are used as-is with no
clamping: in percent mode each output is exactly the rounded value, which
is at least 1 exactly when naturalDimension * percent is at least 50 and
is 0 or less below that; in absolute mode the stored width (and the
derived or stored height) are used unchanged. -/
theorem dims_not_clamped (img : ImageData) (s : ResizerState) :
    (s.usePercent = true →
      computeTargetDims img s =
        (JSNum.fin ((⌊(img.naturalWidth : ℚ) * s.percent / 100 + 1/2⌋ : ℤ) : ℚ),
         JSNum.fin ((⌊(img.naturalHeight : ℚ) * s.percent / 100 + 1/2⌋ : ℤ) : ℚ)) ∧
      (1 ≤ ⌊(img.naturalWidth : ℚ) * s.percent / 100 + 1/2⌋ ↔
        50 ≤ (img.naturalWidth : ℚ) * s.percent) ∧
      (1 ≤ ⌊(img.naturalHeight : ℚ) * s.percent / 100 + 1/2⌋ ↔
        50 ≤ (img.naturalHeight : ℚ) * s.percent)) ∧
    (s.usePercent = false → s.keepAspect = true →
      computeTargetDims img s =
        (s.width, jsRound (jsDiv s.width (jsDiv (JSNum.fin (img.naturalWidth : ℚ))
          (JSNum.fin (img.naturalHeight : ℚ)))))) ∧
    (s.usePercent = false → s.keepAspect = false →
      computeTargetDims img s = (s.width, s.height)) := by
  have h100 : (100 : ℚ) ≠ 0 := by norm_num
  have hiff : ∀ x : ℚ, 1 ≤ ⌊x / 100 + 1/2⌋ ↔ 50 ≤ x := by
    intro x
    rw [Int.le_floor]
    push_cast
    constructor <;> intro h <;> linarith
  refine ⟨fun hp => ⟨?_, hiff _, hiff _⟩, fun hp hk => ?_, fun hp hk => ?_⟩
  · simp only [computeTargetDims, hp, if_true, jsDiv, jsMul, jsRound,
      if_neg h100]
    rw [mul_div_assoc, mul_div_assoc]
  · simp [computeTargetDims, hp, hk]
  · simp [computeTargetDims, hp, hk]

/-- Claim C1 amended witness: at a 1-by-1 image and factor 1 the product
1 * 1 is below 50, and the pipeline output is 0 by 0. -/
theorem dims_not_clamped_witness :
    computeTargetDims ⟨1, 1⟩ c1State = (JSNum.fin 0, JSNum.fin 0) ∧
      ¬(50 ≤ ((1 : ℕ) : ℚ) * c1State.percent) := by
  have h := (dims_not_clamped ⟨1, 1⟩ c1State).1 rfl
  refine ⟨?_, by decide⟩
  rw [h.1]
  decide

/-- Claim C2 counterexample: with a 2-by-3 image, keep-aspect on and
percent off, editing the height field last to 1 yields pipeline dimensions
1 by 2: the output height is 2, not the edited value 1, because the
pipeline re-derives height from the stored width. -/
theorem last_edited_height_not_authoritative :
    resizeToBlobUrl (handleHeightChange (InputVal.numeric 1) c2State) true
        (fun _ _ _ _ => some "blob:b") =
      some { url := "blob:b", width := JSNum.fin 1, height := JSNum.fin 2 } ∧
      JSNum.fin 2 ≠ JSNum.fin 1 := by
  decide

/-- Claim C2 amended: the width field is always authoritative, whatever was
edited last.  After any edit sequence ending in a width edit the output is
(width, round(width / aspect)) with the edited value as the width; after
any edit sequence ending in a height edit the stored width is
round(editedHeight * aspect) and the output height is re-derived as
round(round(editedHeight * aspect) / aspect), which need not equal the
edited height. -/
theorem width_field_always_authoritative (s0 : ResizerState)
    (es : List EditEvent) (v : InputVal) (img : ImageData)
    (hi : s0.image = some img) (hk : s0.keepAspect = true)
    (hp : s0.usePercent = false) :
    computeTargetDims img (applyEdits (es ++ [EditEvent.editWidth v]) s0) =
      (jsNumberOr0 v, jsRound (jsDiv (jsNumberOr0 v)
        (jsDiv (JSNum.fin (img.naturalWidth : ℚ))
          (JSNum.fin (img.naturalHeight : ℚ))))) ∧
    computeTargetDims img (applyEdits (es ++ [EditEvent.editHeight v]) s0) =
      (jsRound (jsMul (jsNumberOr0 v)
        (jsDiv (JSNum.fin (img.naturalWidth : ℚ))
          (JSNum.fin (img.naturalHeight : ℚ)))),
       jsRound (jsDiv (jsRound (jsMul (jsNumberOr0 v)
        (jsDiv (JSNum.fin (img.naturalWidth : ℚ))
          (JSNum.fin (img.naturalHeight : ℚ)))))
        (jsDiv (JSNum.fin (img.naturalWidth : ℚ))
          (JSNum.fin (img.naturalHeight : ℚ))))) := by
  obtain ⟨h1i, h1p, h1k⟩ := applyEdits_preserves es s0
  rw [applyEdits_append, applyEdits_append]
  constructor
  · simp [applyEdit, handleWidthChange, computeTargetDims,
      h1i, hi, h1k, hk, h1p, hp]
  · simp [applyEdit, handleHeightChange, computeTargetDims,
      h1i, hi, h1k, hk, h1p, hp]

/-- Claim C2 amended witness: a single width edit of 1 on a 2-by-3 image
gives pipeline dimensions (1, round(1 / (2/3))) = (1, 2). -/
theorem width_field_always_authoritative_witness :
    computeTargetDims ⟨2, 3⟩
        (applyEdits ([] ++ [EditEvent.editWidth (InputVal.numeric 1)]) c2State) =
      (JSNum.fin 1, JSNum.fin 2) := by
  rw [(width_field_always_authoritative c2State [] (InputVal.numeric 1) ⟨2, 3⟩
    rfl rfl rfl).1]
  decide

/-- Claim C3 counterexample: a degenerate 0-by-0 source is not rejected:
the pipeline succeeds and its height dimension is NaN (the aspect quotient
0/0), so no InvalidSourceError exists and NaN is produced. -/
theorem degenerate_source_not_rejected :
    resizeToBlobUrl c3State true (fun _ _ _ _ => some "blob:c") =
      some { url := "blob:c", width := JSNum.fin 800, height := JSNum.nan } := by
  decide

/-- Claim C3 amended: a degenerate source produces no error; with
keep-aspect on the derived height is 0 when only the natural height is 0
(aspect is +Infinity), NaN when both natural dimensions are 0, and
+Infinity when only the natural width is 0 and the stored width is
positive. -/
theorem degenerate_source_flows_through (s : ResizerState) (img : ImageData)
    (w : ℚ) (hw : s.width = JSNum.fin w) (hk : s.keepAspect = true)
    (hp : s.usePercent = false) :
    (0 < img.naturalWidth → img.naturalHeight = 0 →
      computeTargetDims img s = (JSNum.fin w, JSNum.fin 0)) ∧
    (img.naturalWidth = 0 → img.naturalHeight = 0 →
      computeTargetDims img s = (JSNum.fin w, JSNum.nan)) ∧
    (img.naturalWidth = 0 → 0 < img.naturalHeight → 0 < w →
      computeTargetDims img s = (JSNum.fin w, JSNum.posInf)) := by
  refine ⟨fun hnw hnh => ?_, fun hnw hnh => ?_, fun hnw hnh hw0 => ?_⟩
  · have hnwq : ((img.naturalWidth : ℚ)) ≠ 0 := by exact_mod_cast hnw.ne'
    have hnwq' : (0 : ℚ) < (img.naturalWidth : ℚ) := by exact_mod_cast hnw
    simp only [computeTargetDims, hp, hk, hnh, Nat.cast_zero, if_true,
      Bool.false_eq_true, if_false, hw, jsDiv, if_pos rfl, if_neg hnwq,
      if_pos hnwq', jsRound]
    norm_num
  · simp [computeTargetDims, hp, hk, hnw, hnh, hw, jsDiv, jsRound]
  · have hnhq : ((img.naturalHeight : ℚ)) ≠ 0 := by exact_mod_cast hnh.ne'
    have hw0' : w ≠ 0 := hw0.ne'
    simp only [computeTargetDims, hp, hk, hnw, Nat.cast_zero, if_true,
      Bool.false_eq_true, if_false, hw, jsDiv, if_neg hnhq, zero_div,
      if_pos rfl, if_neg hw0', if_pos hw0, jsRound]

/-- Claim C3 amended witness: with the initial stored width 800, a 5-by-0
source yields height 0, a 0-by-0 source yields height NaN, and a 0-by-5
source yields height +Infinity — never an error. -/
theorem degenerate_source_flows_through_witness :
    computeTargetDims ⟨5, 0⟩ initialState = (JSNum.fin 800, JSNum.fin 0) ∧
      computeTargetDims ⟨0, 0⟩ initialState = (JSNum.fin 800, JSNum.nan) ∧
      computeTargetDims ⟨0, 5⟩ initialState = (JSNum.fin 800, JSNum.posInf) :=
  ⟨(degenerate_source_flows_through initialState ⟨5, 0⟩ 800 rfl rfl rfl).1
      (by decide) rfl,
   (degenerate_source_flows_through initialState ⟨0, 0⟩ 800 rfl rfl rfl).2.1
      rfl rfl,
   (degenerate_source_flows_through initialState ⟨0, 5⟩ 800 rfl rfl rfl).2.2
      rfl (by decide) (by decide)⟩

end
